import Mathlib

/-!
Shallow embedding of `src/verify_tokens.py` (DiscordTokenVerifier).

Modelling conventions:
* HTTP traffic is abstracted by an oracle `net : String → HttpResult` giving,
  for each credential string, the outcome of the single GET request that
  `verify_token` issues.  `HttpResult.ok status body` is a completed HTTP
  response; `body` is `Except.ok u` when `response.json()` parses to a JSON
  object (its relevant fields in `UserData`) and `Except.error msg` when the
  body is not valid JSON (in the `requests` library this raises
  `requests.exceptions.JSONDecodeError`, a subclass of `RequestException`,
  hence it is caught by the first `except` arm).  `HttpResult.requestError`
  is a `requests.exceptions.RequestException` (timeout, connection refused,
  DNS failure, ...); `HttpResult.otherError` is any other exception.
* JSON object fields are modelled as `Option` values: `none` means the key is
  absent, mirroring Python's `dict.get(key, default)`.
* Python values that can reach `get_creation_date` are modelled by `PyVal`
  (the `None` object, an `int`, or a `str`), with Python truthiness.
* `datetime.fromtimestamp(t).strftime("%Y-%m-%d %H:%M:%S")` is modelled as a
  proleptic-Gregorian civil-date computation at UTC (seconds floored, the
  fractional part only affects the microsecond field which the format string
  drops).  `fromtimestamp` raising on out-of-range input (datetime years are
  restricted to 1..9999) is modelled by the `tsInRange` guard; both the raise
  in Python and the guard here end in the `"N/A"` sentinel.
* File reading is abstracted by an `Except FileError (List String)`: either
  the list of physical lines of the file or the exception `open`/iteration
  raised.  Console output is modelled as the list of printed lines.
-/

/-- A Python value as it can reach `get_creation_date`: the `None` object,
an `int`, or a `str`. -/
inductive PyVal where
  | noneV : PyVal
  | intV (n : Int) : PyVal
  | strV (s : String) : PyVal
deriving Repr, DecidableEq

/-- Python truthiness for the values of `PyVal`: `None` and `0` and `""` are
falsy, everything else is truthy. -/
def PyVal.truthy : PyVal → Bool
  | .noneV => false
  | .intV n => n != 0
  | .strV s => !s.data.isEmpty

/-- ASCII whitespace, as Python's `str.strip` removes (the unicode
whitespace code points beyond ASCII are not modelled). -/
def isPySpace (c : Char) : Bool :=
  c == ' ' || c == '\t' || c == '\n' || c == '\r' || c == '\x0b' || c == '\x0c'

/-- Model of Python's `str.strip()`: drop leading and trailing whitespace.
(Implemented on the character list so that every proof below can be checked
by kernel evaluation.) -/
def pyStrip (s : String) : String :=
  ⟨((s.data.dropWhile isPySpace).reverse.dropWhile isPySpace).reverse⟩

/-- Value of a non-empty all-digit character run, `none` otherwise. -/
def digitsVal (cs : List Char) : Option Nat :=
  if !cs.isEmpty && cs.all Char.isDigit then
    some (cs.foldl (fun a c => a * 10 + (c.toNat - 48)) 0)
  else
    none

/-- Model of Python's `int(s)` on a `str`: strip surrounding whitespace,
allow one optional sign, then a non-empty run of decimal digits; `none`
models the `ValueError` raise.  (Underscore digit grouping, accepted by
CPython, is not modelled; this only changes which strings parse, and every
claim below quantifies over outcomes of the parse.) -/
def parseIntPy (s : String) : Option Int :=
  match (pyStrip s).data with
  | [] => none
  | c :: cs =>
      if c == '-' then (digitsVal cs).map (fun n => -(n : Int))
      else if c == '+' then (digitsVal cs).map (fun n => (n : Int))
      else (digitsVal (c :: cs)).map (fun n => (n : Int))

/-- Model of Python's `int(v)` on a `PyVal`; `none` models a raise
(`TypeError` on `None`, `ValueError` on a non-numeric string). -/
def PyVal.toIntPy : PyVal → Option Int
  | .noneV => none
  | .intV n => some n
  | .strV s => parseIntPy s

/-- Civil date from a count of days since 1970-01-01 (proleptic Gregorian),
following the standard days-to-civil algorithm.  Returns (year, month, day). -/
def civilFromDays (z0 : Int) : Int × Nat × Nat :=
  let z := z0 + 719468
  let era := Int.fdiv z 146097
  let doe := (z - era * 146097).toNat
  let yoe := (doe - doe / 1460 + doe / 36524 - doe / 146096) / 365
  let doy := doe - (365 * yoe + yoe / 4 - yoe / 100)
  let mp := (5 * doy + 2) / 153
  let d := doy - (153 * mp + 2) / 5 + 1
  let m := if mp < 10 then mp + 3 else mp - 9
  let y := (yoe : Int) + era * 400 + (if m ≤ 2 then 1 else 0)
  (y, m, d)

/-- Zero-pad a natural number to two decimal digits (`strftime` `%M` etc.). -/
def pad2 (n : Nat) : String :=
  if n < 10 then "0" ++ toString n else toString n

/-- Zero-pad a natural number to four decimal digits (`strftime` `%Y`). -/
def pad4 (n : Nat) : String :=
  if n < 10 then "000" ++ toString n
  else if n < 100 then "00" ++ toString n
  else if n < 1000 then "0" ++ toString n
  else toString n

/-- Model of
`datetime.fromtimestamp(ms / 1000).strftime("%Y-%m-%d %H:%M:%S")` at UTC:
floor the milliseconds to seconds, split into days and second-of-day, and
format the civil date-time. -/
def formatTimestamp (ms : Int) : String :=
  let secs := Int.fdiv ms 1000
  let days := Int.fdiv secs 86400
  let sod := (secs - days * 86400).toNat
  let (y, m, d) := civilFromDays days
  pad4 y.toNat ++ "-" ++ pad2 m ++ "-" ++ pad2 d ++ " " ++
    pad2 (sod / 3600) ++ ":" ++ pad2 (sod % 3600 / 60) ++ ":" ++ pad2 (sod % 60)

/-- The year of the civil date of a millisecond timestamp. -/
def yearOfMs (ms : Int) : Int :=
  (civilFromDays (Int.fdiv (Int.fdiv ms 1000) 86400)).1

/-- Guard modelling the raise of `datetime.fromtimestamp` on out-of-range
input: `datetime` objects are restricted to years 1..9999. -/
def tsInRange (ms : Int) : Bool :=
  1 ≤ yearOfMs ms && yearOfMs ms ≤ 9999

/-- `DiscordTokenVerifier.get_creation_date` (src/verify_tokens.py:93-102):
`if user_id: return strftime of (int(user_id) >> 22) + 1420070400000; else
return "N/A"`, with every raise caught and turned into `"N/A"`.  Python's
`>> 22` on an `int` is floor division by `2^22 = 4194304`. -/
def get_creation_date (user_id : PyVal) : String :=
  if user_id.truthy then
    match user_id.toIntPy with
    | some n =>
        if tsInRange (Int.fdiv n (2 ^ 22) + 1420070400000) then
          formatTimestamp (Int.fdiv n (2 ^ 22) + 1420070400000)
        else
          "N/A"
    | none => "N/A"
  else
    "N/A"

/-- The relevant fields of the JSON object returned by `/users/@me`.
`none` models an absent key (so `dict.get(k, default)` yields the default). -/
structure UserData where
  username : Option String
  id : Option String
  email : Option String
  avatar : Option String
  verified : Option Bool
  mfa_enabled : Option Bool
deriving Repr, DecidableEq

/-- `user_data.get("id")`: the `None` object when the key is absent,
otherwise the string value. -/
def idVal (u : UserData) : PyVal :=
  match u.id with
  | none => .noneV
  | some s => .strV s

/-- Outcome of the single `requests.get` call issued for one credential. -/
inductive HttpResult where
  | ok (status : Nat) (body : Except String UserData)
  | requestError (msg : String)
  | otherError (msg : String)
deriving Repr

/-- The result record built by `verify_token` (a Python dict with a fixed
set of ten keys, always in this order). -/
structure VerifyResult where
  token : String
  valid : Bool
  username : String
  user_id : String
  email : String
  avatar : String
  created_at : String
  verified : Bool
  mfa_enabled : Bool
  status : String
deriving Repr, DecidableEq

/-- The record every non-200 branch of `verify_token` returns: invalid, all
identity fields the `"N/A"` sentinel, flags `False`, with the given status. -/
def invalidRecord (token status : String) : VerifyResult :=
  { token := token
    valid := false
    username := "N/A"
    user_id := "N/A"
    email := "N/A"
    avatar := "N/A"
    created_at := "N/A"
    verified := false
    mfa_enabled := false
    status := status }

/-- `DiscordTokenVerifier.verify_token` (src/verify_tokens.py:12-91): issue
one GET, then classify: 200 with a JSON body → valid record built from the
body; a 200 body that fails to parse raises `JSONDecodeError` (a
`RequestException`) → "Connection Error: ..." record; 401 → unauthorized
record; any other status → "Error - HTTP <code>" record; a
`RequestException` → "Connection Error: ..." record; any other exception →
"Error: ..." record. -/
def verify_token (net : String → HttpResult) (token : String) : VerifyResult :=
  match net token with
  | .ok status body =>
      if status = 200 then
        match body with
        | .ok u =>
            { token := token
              valid := true
              username := u.username.getD "N/A"
              user_id := u.id.getD "N/A"
              email := u.email.getD "N/A"
              avatar := u.avatar.getD "N/A"
              created_at := get_creation_date (idVal u)
              verified := u.verified.getD false
              mfa_enabled := u.mfa_enabled.getD false
              status := "Valid Token" }
        | .error m => invalidRecord token ("Connection Error: " ++ m)
      else if status = 401 then
        invalidRecord token "Invalid Token - Unauthorized"
      else
        invalidRecord token ("Error - HTTP " ++ toString status)
  | .requestError m => invalidRecord token ("Connection Error: " ++ m)
  | .otherError m => invalidRecord token ("Error: " ++ m)

/-- Outcome of opening and reading the input file: its physical lines, or
the exception raised. -/
inductive FileError where
  | fileNotFound : FileError
  | readError (msg : String) : FileError
deriving Repr, DecidableEq

/-- The console line printed by the two `except` arms of `verify_from_file`
(src/verify_tokens.py:127-132). -/
def fileErrorMsg (path : String) : FileError → String
  | .fileNotFound => "[!] Error: File '" ++ path ++ "' not found"
  | .readError m => "[!] Error reading file: " ++ m

/-- The progress lines `verify_from_file` prints for one result
(src/verify_tokens.py:117-125). -/
def progressLines (r : VerifyResult) : List String :=
  let icon := if r.valid then "✓" else "✗"
  let mainLine := icon ++ " Token: " ++ String.mk (r.token.data.take 20) ++ "... | Status: " ++ r.status
  if r.valid then
    [mainLine,
     "   Username: " ++ r.username,
     "   User ID: " ++ r.user_id,
     "   Email: " ++ r.email,
     "   Account Created: " ++ r.created_at,
     "   MFA Enabled: " ++ (if r.mfa_enabled then "True" else "False"),
     ""]
  else
    [mainLine, ""]

/-- `DiscordTokenVerifier.verify_from_file` (src/verify_tokens.py:104-132)
on a fresh verifier (`self.results = []`): strip each line and keep the
non-blank ones, verify each in order, return the (results, console lines)
pair; on a read exception print the error line and return no results. -/
def verify_from_file (net : String → HttpResult) (path : String)
    (contents : Except FileError (List String)) :
    List VerifyResult × List String :=
  match contents with
  | .ok lines =>
      let tokens := (lines.filter (fun l => !(pyStrip l).data.isEmpty)).map pyStrip
      let results := tokens.map (verify_token net)
      let console :=
        ["",
         "[*] Found " ++ toString tokens.length ++ " token(s) to verify",
         "[*] Starting verification...",
         ""] ++ (results.map progressLines).flatten
      (results, console)
  | .error e => ([], [fileErrorMsg path e])

/-- JSON documents, as produced by `json.dump` / consumed by `json.load`. -/
inductive Json where
  | jnull : Json
  | jbool (b : Bool) : Json
  | jnum (n : Int) : Json
  | jstr (s : String) : Json
  | jarr (xs : List Json) : Json
  | jobj (fields : List (String × Json)) : Json
deriving Repr

/-- The JSON object `json.dump` writes for one result dict: its ten keys in
insertion order. -/
def encodeResult (r : VerifyResult) : Json :=
  .jobj [("token", .jstr r.token),
         ("valid", .jbool r.valid),
         ("username", .jstr r.username),
         ("user_id", .jstr r.user_id),
         ("email", .jstr r.email),
         ("avatar", .jstr r.avatar),
         ("created_at", .jstr r.created_at),
         ("verified", .jbool r.verified),
         ("mfa_enabled", .jbool r.mfa_enabled),
         ("status", .jstr r.status)]

/-- `DiscordTokenVerifier.save_results_json` (src/verify_tokens.py:134-141):
the JSON document written to the output file is the array of result objects
in collection order. -/
def save_results_json (results : List VerifyResult) : Json :=
  .jarr (results.map encodeResult)

/-- Look a string field up in a parsed JSON object. -/
def getStr (fs : List (String × Json)) (k : String) : Option String :=
  match fs.lookup k with
  | some (.jstr s) => some s
  | _ => none

/-- Look a boolean field up in a parsed JSON object. -/
def getBool (fs : List (String × Json)) (k : String) : Option Bool :=
  match fs.lookup k with
  | some (.jbool b) => some b
  | _ => none

/-- Read one result record back out of a parsed JSON value. -/
def decodeResult (j : Json) : Option VerifyResult :=
  match j with
  | .jobj fs =>
      match getStr fs "token", getBool fs "valid", getStr fs "username",
            getStr fs "user_id", getStr fs "email", getStr fs "avatar",
            getStr fs "created_at", getBool fs "verified",
            getBool fs "mfa_enabled", getStr fs "status" with
      | some t, some v, some un, some uid, some em, some av, some ca,
        some ve, some mf, some st =>
          some { token := t, valid := v, username := un, user_id := uid,
                 email := em, avatar := av, created_at := ca, verified := ve,
                 mfa_enabled := mf, status := st }
      | _, _, _, _, _, _, _, _, _, _ => none
  | _ => none

/-- Read an ordered result collection back out of a parsed JSON value. -/
def decodeResults (j : Json) : Option (List VerifyResult) :=
  match j with
  | .jarr xs => decodeList xs
  | _ => none
where
  decodeList : List Json → Option (List VerifyResult)
    | [] => some []
    | x :: xs =>
        match decodeResult x, decodeList xs with
        | some r, some rs => some (r :: rs)
        | _, _ => none

/-! ## Helper lemmas -/

/-- Every branch of `verify_token` puts the input credential in the `token`
field of the record it returns. -/
theorem verify_token_token (net : String → HttpResult) (t : String) :
    (verify_token net t).token = t := by
  unfold verify_token
  cases net t with
  | ok status body =>
      by_cases h2 : status = 200
      · subst h2
        cases body with
        | ok u => simp
        | error m => simp [invalidRecord]
      · by_cases h4 : status = 401 <;> simp [h2, h4, invalidRecord]
  | requestError m => simp [invalidRecord]
  | otherError m => simp [invalidRecord]

/-- Filtering on the stripped line being non-blank and then stripping is the
same as stripping every line and keeping the non-blank ones. -/
theorem trim_filter_comm (lines : List String) :
    (lines.filter (fun l => !(pyStrip l).data.isEmpty)).map pyStrip
      = (lines.map pyStrip).filter (fun s => !s.data.isEmpty) := by
  induction lines with
  | nil => rfl
  | cons l ls ih =>
      by_cases h : (pyStrip l).data.isEmpty <;>
        simp [List.filter_cons, h, ih]

/-- One result record survives the encode-then-decode round trip. -/
theorem decodeResult_encodeResult (r : VerifyResult) :
    decodeResult (encodeResult r) = some r := by
  cases r
  rfl

/-! ## Claims -/

/-- C1: on a readable input file, the batch run returns exactly one result
per non-blank trimmed line, in input order (the i-th result's credential is
the i-th non-blank trimmed line), so blank and pure-whitespace lines
contribute no entries and the collection has exactly N entries. -/
theorem C1_batch_one_result_per_line (net : String → HttpResult)
    (path : String) (lines : List String) :
    (verify_from_file net path (Except.ok lines)).fst.map VerifyResult.token
        = (lines.map pyStrip).filter (fun s => !s.data.isEmpty) ∧
    (verify_from_file net path (Except.ok lines)).fst.length
        = ((lines.map pyStrip).filter (fun s => !s.data.isEmpty)).length := by
  have hfun : VerifyResult.token ∘ verify_token net = id :=
    funext fun t => verify_token_token net t
  have hmap :
      (verify_from_file net path (Except.ok lines)).fst.map VerifyResult.token
        = (lines.map pyStrip).filter (fun s => !s.data.isEmpty) := by
    show ((((lines.filter (fun l => !(pyStrip l).data.isEmpty)).map pyStrip).map
        (verify_token net)).map VerifyResult.token)
        = (lines.map pyStrip).filter (fun s => !s.data.isEmpty)
    rw [List.map_map, hfun, List.map_id, trim_filter_comm]
  refine ⟨hmap, ?_⟩
  calc (verify_from_file net path (Except.ok lines)).fst.length
      = ((verify_from_file net path (Except.ok lines)).fst.map VerifyResult.token).length := by
        rw [List.length_map]
    _ = ((lines.map pyStrip).filter (fun s => !s.data.isEmpty)).length := by rw [hmap]

/-- C2: `verify_token` classifies a completed HTTP response exactly as the
spec states: a 200 response with a parsed body yields a valid record whose
identity fields come from the body, whose creation timestamp is computed by
the Snowflake Decoder from the id field, and whose status is "Valid Token";
a 401 response yields an invalid record with status exactly
"Invalid Token - Unauthorized"; any other status code c yields an invalid
record whose status embeds c. -/
theorem C2_response_classification (net : String → HttpResult) (t : String) :
    (∀ u, net t = HttpResult.ok 200 (Except.ok u) →
        verify_token net t =
          { token := t
            valid := true
            username := u.username.getD "N/A"
            user_id := u.id.getD "N/A"
            email := u.email.getD "N/A"
            avatar := u.avatar.getD "N/A"
            created_at := get_creation_date (idVal u)
            verified := u.verified.getD false
            mfa_enabled := u.mfa_enabled.getD false
            status := "Valid Token" }) ∧
    (∀ b, net t = HttpResult.ok 401 b →
        verify_token net t = invalidRecord t "Invalid Token - Unauthorized") ∧
    (∀ c b, net t = HttpResult.ok c b → c ≠ 200 → c ≠ 401 →
        verify_token net t = invalidRecord t ("Error - HTTP " ++ toString c)) := by
  refine ⟨fun u h => ?_, fun b h => ?_, fun c b h hc2 hc4 => ?_⟩
  · simp [verify_token, h]
  · simp [verify_token, h]
  · simp [verify_token, h, hc2, hc4]

/-- Witness for C2: a concrete 200 response with a full body, a concrete
401 response, and a concrete 500 response, each classified as stated. -/
theorem C2_witness :
    verify_token
        (fun _ => HttpResult.ok 200 (Except.ok
          { username := some "alice", id := some "175928847299117063",
            email := some "alice@example.com", avatar := some "abc123",
            verified := some true, mfa_enabled := some false })) "tokA"
      = { token := "tokA", valid := true, username := "alice",
          user_id := "175928847299117063", email := "alice@example.com",
          avatar := "abc123", created_at := "2016-04-30 11:18:25",
          verified := true, mfa_enabled := false, status := "Valid Token" } ∧
    verify_token (fun _ => HttpResult.ok 401 (Except.error "x")) "tokB"
      = invalidRecord "tokB" "Invalid Token - Unauthorized" ∧
    verify_token (fun _ => HttpResult.ok 500 (Except.error "x")) "tokC"
      = invalidRecord "tokC" ("Error - HTTP " ++ toString 500) := by
  refine ⟨?_, ?_, ?_⟩
  · rw [(C2_response_classification _ "tokA").1 _ rfl]
    decide
  · exact (C2_response_classification _ "tokB").2.1 _ rfl
  · exact (C2_response_classification _ "tokC").2.2 500 _ rfl (by decide) (by decide)

/-- C3 (counterexample to the claim as stated): a 200 response whose JSON
body lacks the identity keys yields a record with valid = true whose
username field is the "N/A" sentinel, so valid = true does not imply the
identity fields are non-sentinel. -/
theorem C3_counterexample :
    (verify_token
        (fun _ => HttpResult.ok 200 (Except.ok
          { username := none, id := none, email := none, avatar := none,
            verified := none, mfa_enabled := none })) "tok").valid = true ∧
    (verify_token
        (fun _ => HttpResult.ok 200 (Except.ok
          { username := none, id := none, email := none, avatar := none,
            verified := none, mfa_enabled := none })) "tok").username = "N/A" := by
  decide

/-- C3 (amended): valid = false implies every identity field holds the
"N/A" sentinel; valid = true implies each identity field equals the
corresponding response-body field when that field is present, with the
"N/A" sentinel as fallback for fields absent from the body. -/
theorem C3_identity_field_invariant (net : String → HttpResult) (t : String) :
    ((verify_token net t).valid = false →
        (verify_token net t).username = "N/A" ∧
        (verify_token net t).user_id = "N/A" ∧
        (verify_token net t).email = "N/A" ∧
        (verify_token net t).avatar = "N/A") ∧
    (∀ u, net t = HttpResult.ok 200 (Except.ok u) →
        (verify_token net t).username = u.username.getD "N/A" ∧
        (verify_token net t).user_id = u.id.getD "N/A" ∧
        (verify_token net t).email = u.email.getD "N/A" ∧
        (verify_token net t).avatar = u.avatar.getD "N/A") := by
  constructor
  · intro hv
    cases h : net t with
    | ok status body =>
        by_cases h2 : status = 200
        · subst h2
          cases body with
          | ok u => simp [verify_token, h] at hv
          | error m => simp [verify_token, h, invalidRecord]
        · by_cases h4 : status = 401 <;>
            simp [verify_token, h, h2, h4, invalidRecord]
    | requestError m => simp [verify_token, h, invalidRecord]
    | otherError m => simp [verify_token, h, invalidRecord]
  · intro u h
    simp [verify_token, h]

/-- Witness for C3: concrete instances of both halves of the amended claim:
a network failure leaves every identity field at the sentinel, and a 200
response carrying a username populates the username field with it. -/
theorem C3_witness :
    ((verify_token (fun _ => HttpResult.requestError "refused") "tok").username = "N/A" ∧
     (verify_token (fun _ => HttpResult.requestError "refused") "tok").user_id = "N/A" ∧
     (verify_token (fun _ => HttpResult.requestError "refused") "tok").email = "N/A" ∧
     (verify_token (fun _ => HttpResult.requestError "refused") "tok").avatar = "N/A") ∧
    (verify_token
        (fun _ => HttpResult.ok 200 (Except.ok
          { username := some "bob", id := none, email := none, avatar := none,
            verified := none, mfa_enabled := none })) "tok").username = "bob" := by
  constructor
  · exact (C3_identity_field_invariant (fun _ => HttpResult.requestError "refused") "tok").1
      (by decide)
  · have h := (C3_identity_field_invariant
        (fun _ => HttpResult.ok 200 (Except.ok
          { username := some "bob", id := none, email := none, avatar := none,
            verified := none, mfa_enabled := none })) "tok").2 _ rfl
    rw [h.1]
    rfl

/-- C4: the Snowflake Decoder is total on every Python value it can
receive: the missing identifier, a non-numeric string, and an out-of-range
value all produce the "N/A" sentinel, and in general every input produces
either the "N/A" sentinel or a formatted timestamp string. -/
theorem C4_decoder_never_raises (v : PyVal) :
    get_creation_date PyVal.noneV = "N/A" ∧
    get_creation_date (PyVal.strV "abc") = "N/A" ∧
    get_creation_date (PyVal.strV "999999999999999999999999999") = "N/A" ∧
    (get_creation_date v = "N/A" ∨
      ∃ ms : Int, get_creation_date v = formatTimestamp ms) := by
  refine ⟨by decide, by decide, by decide, ?_⟩
  unfold get_creation_date
  by_cases ht : v.truthy = true
  · rw [if_pos ht]
    cases hi : v.toIntPy with
    | none => exact Or.inl rfl
    | some n =>
        cases hr : tsInRange (Int.fdiv n (2 ^ 22) + 1420070400000) with
        | true =>
            refine Or.inr ⟨Int.fdiv n (2 ^ 22) + 1420070400000, ?_⟩
            show (if tsInRange (Int.fdiv n (2 ^ 22) + 1420070400000) = true then
                formatTimestamp (Int.fdiv n (2 ^ 22) + 1420070400000) else "N/A")
              = formatTimestamp (Int.fdiv n (2 ^ 22) + 1420070400000)
            rw [hr]
            rfl
        | false =>
            refine Or.inl ?_
            show (if tsInRange (Int.fdiv n (2 ^ 22) + 1420070400000) = true then
                formatTimestamp (Int.fdiv n (2 ^ 22) + 1420070400000) else "N/A")
              = "N/A"
            rw [hr]
            rfl
  · rw [if_neg ht]
    exact Or.inl rfl

/-- C5: when the outbound request fails at the network level
(`requests.exceptions.RequestException`: timeout, connection refused, DNS
failure), `verify_token` returns normally with an invalid record whose
identity fields are all the sentinel and whose status embeds the failure
description. -/
theorem C5_network_failure (net : String → HttpResult) (t m : String)
    (h : net t = HttpResult.requestError m) :
    verify_token net t = invalidRecord t ("Connection Error: " ++ m) := by
  simp [verify_token, h]

/-- Witness for C5: a concrete connection failure yields the invalid record
with the failure description in the status. -/
theorem C5_witness :
    verify_token (fun _ => HttpResult.requestError "Connection refused") "tok"
      = invalidRecord "tok" ("Connection Error: " ++ "Connection refused") :=
  C5_network_failure (fun _ => HttpResult.requestError "Connection refused")
    "tok" "Connection refused" rfl

/-- C6: when opening or reading the input file raises (missing file or any
other read failure), `verify_from_file` returns normally with the empty
collection, printing only the corresponding error line. -/
theorem C6_file_error_empty (net : String → HttpResult) (path : String)
    (e : FileError) :
    verify_from_file net path (Except.error e) = ([], [fileErrorMsg path e]) :=
  rfl

/-- C7: the structured document `save_results_json` writes is lossless:
reading the result collection back out of it yields exactly the same
entries, with the same field values, in the same order. -/
theorem C7_json_round_trip (results : List VerifyResult) :
    decodeResults (save_results_json results) = some results := by
  show decodeResults.decodeList (results.map encodeResult) = some results
  induction results with
  | nil => rfl
  | cons r rs ih =>
      simp only [List.map_cons, decodeResults.decodeList,
        decodeResult_encodeResult, ih]

/-- C8: on every identifier on which it succeeds, the Snowflake Decoder
computes the timestamp as the integer identifier right-shifted by 22 bits
(floor division by 2 ^ 22, Python's `>>` on int), plus the fixed epoch
offset 1420070400000 milliseconds, formatted with the "%Y-%m-%d %H:%M:%S"
pattern. -/
theorem C8_snowflake_decode (v : PyVal) (n : Int)
    (ht : v.truthy = true) (hn : v.toIntPy = some n)
    (hr : tsInRange (Int.fdiv n (2 ^ 22) + 1420070400000) = true) :
    get_creation_date v = formatTimestamp (Int.fdiv n (2 ^ 22) + 1420070400000) := by
  unfold get_creation_date
  rw [if_pos ht, hn]
  show (if tsInRange (Int.fdiv n (2 ^ 22) + 1420070400000) = true then
      formatTimestamp (Int.fdiv n (2 ^ 22) + 1420070400000) else "N/A")
    = formatTimestamp (Int.fdiv n (2 ^ 22) + 1420070400000)
  rw [hr]
  rfl

/-- Witness for C8: the documented example snowflake 175928847299117063
decodes to 2016-04-30 11:18:25 UTC
((175928847299117063 >> 22) + 1420070400000 = 1462015105796 ms). -/
theorem C8_witness :
    get_creation_date (PyVal.strV "175928847299117063") = "2016-04-30 11:18:25" := by
  rw [C8_snowflake_decode (PyVal.strV "175928847299117063") 175928847299117063
    (by decide) (by decide) (by decide)]
  decide

/-- C9 (counterexample to the claim as stated): a 200 response whose body
is not valid JSON makes `verify_token` return a record with valid = false,
so valid = true is not equivalent to the HTTP status being 200. -/
theorem C9_counterexample :
    ((fun _ : String => HttpResult.ok 200 (Except.error "Expecting value"))
        "tok" = HttpResult.ok 200 (Except.error "Expecting value")) ∧
    (verify_token
        (fun _ => HttpResult.ok 200 (Except.error "Expecting value"))
        "tok").valid = false := by
  exact ⟨rfl, rfl⟩

/-- C9 (amended): every branch of `verify_token` returns a full
`VerifyResult` record (the fixed ten-field shape is the record type
itself), its token field equals the input credential, and valid is true
exactly when the response had status code 200 and its body parsed as a
JSON object. -/
theorem C9_record_invariant (net : String → HttpResult) (t : String) :
    (verify_token net t).token = t ∧
    ((verify_token net t).valid = true ↔
      ∃ u, net t = HttpResult.ok 200 (Except.ok u)) := by
  refine ⟨verify_token_token net t, ?_⟩
  cases h : net t with
  | ok status body =>
      by_cases h2 : status = 200
      · subst h2
        cases body with
        | ok u => simp [verify_token, h]
        | error m => simp [verify_token, h, invalidRecord]
      · by_cases h4 : status = 401 <;>
          simp [verify_token, h, h2, h4, invalidRecord]
  | requestError m => simp [verify_token, h, invalidRecord]
  | otherError m => simp [verify_token, h, invalidRecord]

/-- C10: the Snowflake Decoder maps every falsy identifier to the "N/A"
sentinel — including integer zero and the empty string, although zero is a
decodable identifier (its timestamp would format to the epoch
2015-01-01 00:00:00) — and only truthy identifiers reach the decoding
arithmetic. -/
theorem C10_falsy_sentinel (v : PyVal) :
    get_creation_date (PyVal.intV 0) = "N/A" ∧
    get_creation_date (PyVal.strV "") = "N/A" ∧
    get_creation_date PyVal.noneV = "N/A" ∧
    formatTimestamp (Int.fdiv 0 (2 ^ 22) + 1420070400000) = "2015-01-01 00:00:00" ∧
    (v.truthy = false → get_creation_date v = "N/A") := by
  refine ⟨by decide, by decide, by decide, by decide, fun h => ?_⟩
  unfold get_creation_date
  rw [if_neg]
  rw [h]
  exact Bool.false_ne_true

/-- Witness for C10: the falsy-identifier conjunct applied at integer
zero. -/
theorem C10_witness : get_creation_date (PyVal.intV 0) = "N/A" :=
  (C10_falsy_sentinel (PyVal.intV 0)).2.2.2.2 (by decide)
